import Mathlib

/-!
Shallow embedding of the connection-acceptance and lifecycle-supervision
layer of the rumqttd broker (src/rumqttd/src/lib.rs), together with proofs
of the specified properties of `Connector::new_connection`, `Server::tls`
(both the rustls and the native-tls backend), the accept loop of
`Server::start`, and `Broker`.
-/

namespace Rumqttd

/-- Kinds of `std::io::Error`. Only `ConnectionAborted` is distinguished by
the code (lib.rs line 420); every other kind is collapsed into `other`,
tagged so that distinct kinds stay distinct. -/
inductive IoErrorKind
  | connectionAborted
  | other (tag : Nat)
deriving DecidableEq

/-- Modelled from the spec: the error type of the external link component
(module `remotelink`, not part of the measured source). lib.rs matches on
`remotelink::Error::Io(e)` and `remotelink::Error::Disconnect` and treats
every further variant uniformly ("any other error"), so those further
variants are collapsed into a tagged `other`. -/
inductive RemoteLinkError
  | io (kind : IoErrorKind)
  | disconnect
  | other (tag : Nat)
deriving DecidableEq

/-- The crate-level error enum `Error` of lib.rs (lines 54-88). Payloads
that this layer never inspects (the wrapped TLS library error, the received
packet) are modelled by opaque tags. -/
inductive Error
  | Io (kind : IoErrorKind)
  | Connection (e : RemoteLinkError)
  | Timeout
  | Recv
  | Send
  | Tls (tag : Nat)
  | ServerCertRequired
  | ServerKeyRequired
  | CaFileNotFound (path : String)
  | ServerCertNotFound (path : String)
  | ServerKeyNotFound (path : String)
  | InvalidCACert (path : String)
  | InvalidServerCert (path : String)
  | InvalidServerKey (path : String)
  | Disconnected
  | NetworkClosed
  | WrongPacket (tag : Nat)
deriving DecidableEq

/-- Modelled from the spec: the disconnect event sent to the router
(`rumqttlog::Disconnection`, outside the measured source): client
identifier, the execute-will flag, and the opaque pending session state
(type parameter `α`). -/
structure Disconnection (α : Type) where
  client_id : String
  execute_will : Bool
  pending : α
deriving DecidableEq

/-- Modelled from the spec: the router event channel's message payload.
The only variant this layer produces is `Disconnect`. -/
inductive Event (α : Type)
  | Disconnect (d : Disconnection α)
deriving DecidableEq

/-- Connection settings (lib.rs lines 116-126). -/
structure ConnectionSettings where
  connection_timeout_ms : Nat
  max_client_id_len : Nat
  throttle_delay_ms : Nat
  max_payload_size : Nat
  max_inflight_count : Nat
  max_inflight_size : Nat
  username : Option String
  password : Option String
deriving DecidableEq

/-- Listener settings (lib.rs lines 102-114). -/
structure ServerSettings where
  port : Nat
  pkcs12_path : Option String
  pkcs12_pass : Option String
  ca_path : Option String
  cert_path : Option String
  key_path : Option String
  next_connection_delay_ms : Nat
  connections : ConnectionSettings
deriving DecidableEq

/-- Broker configuration (lib.rs lines 92-100). The router configuration,
cluster, replicator and console settings are opaque to this layer and kept
abstract. -/
structure Config where
  id : Nat
  router : Nat
  servers : List (String × ServerSettings)
  cluster : Option (List (String × Nat))
  replicator : Option ConnectionSettings
  console : Option Nat
deriving DecidableEq

/-- The classification match of `Connector::new_connection`
(lib.rs lines 413-434): given the result of `link.start().await` it
produces the `(execute_will, pending)` pair. `stateClean` is the value
`link.state.clean()` returns at exit; each branch of the source calls it.
The `if` mirrors the source's match guard
`if e.kind() == io::ErrorKind::ConnectionAborted`: an `Io` error of any
other kind falls through to the final catch-all arm, which also yields
`(true, link.state.clean())`. -/
def disconnectClassify {α : Type} (result : Except RemoteLinkError Unit)
    (stateClean : α) : Bool × α :=
  match result with
  | Except.ok _ => (true, stateClean)
  | Except.error (RemoteLinkError.io k) =>
      if k = IoErrorKind.connectionAborted then (true, stateClean)
      else (true, stateClean)
  | Except.error RemoteLinkError.disconnect => (false, stateClean)
  | Except.error _ => (true, stateClean)

/-- Embedding of `Connector::new_connection` (lib.rs lines 407-441).
`handshake` is the result of `RemoteLink::new(config, router_tx, network)`:
on success it yields the client id, the connection id, the eventual result
of `link.start().await`, and the value of `link.state.clean()` at exit.
`sendOk` is whether `self.router_tx.send(message)` succeeds. The returned
pair is the function's `Result` together with the list of send attempts
made on the router channel (each attempt records its message). -/
def new_connection {α : Type}
    (handshake : Except Error (String × Nat × Except RemoteLinkError Unit × α))
    (sendOk : Bool) : Except Error Unit × List (Nat × Event α) :=
  match handshake with
  | Except.error e => (Except.error e, [])
  | Except.ok (client_id, id, runResult, stateClean) =>
      let ew := disconnectClassify runResult stateClean
      let disconnect := Event.Disconnect (Disconnection.mk client_id ew.1 ew.2)
      let message := (id, disconnect)
      if sendOk then (Except.ok (), [message])
      else (Except.error Error.Send, [message])

/-- Abstract view of a file on disk as the rustls backend reads it:
whether `File::open` succeeds, the result of `certs(..)` when it is read as
a certificate PEM (`none` = parse failure), the result of
`rsa_private_keys(..)` when it is read as a key PEM (`none` = parse
failure; `some []` = parses to no key), and whether
`RootCertStore::add_pem_file` succeeds on it. Parsed certificates and keys
are opaque tags. -/
structure FsFile where
  openable : Bool
  certsPem : Option (List Nat)
  rsaKeys : Option (List Nat)
  caAddOk : Bool

/-- The acceptor produced by the rustls backend: the certificate chain,
the selected private key, and whether client (mutual) authentication was
configured from a CA file. -/
structure TlsAcceptorModel where
  certs : List Nat
  key : Nat
  clientAuthRequired : Bool
deriving DecidableEq

/-- Embedding of `Server::tls`, rustls backend (lib.rs lines 277-323).
`fs` gives the content of each path; `setSingleCertOk` is whether
`server_config.set_single_cert(certs, key)` succeeds (its failure is
wrapped as `Error::Tls`). -/
def tls_rustls (config : ServerSettings) (fs : String → FsFile)
    (setSingleCertOk : Bool) : Except Error (Option TlsAcceptorModel) :=
  match config.cert_path with
  | none => Except.ok none
  | some cert =>
    if (fs cert).openable = false then
      Except.error (Error.ServerCertNotFound cert)
    else
      match (fs cert).certsPem with
      | none => Except.error (Error.InvalidServerCert cert)
      | some certs =>
        match config.key_path with
        | none => Except.error Error.ServerKeyRequired
        | some key =>
          if (fs key).openable = false then
            Except.error (Error.ServerKeyNotFound key)
          else
            match (fs key).rsaKeys with
            | none => Except.error (Error.InvalidServerKey key)
            | some keys =>
              match keys.head? with
              | none => Except.error (Error.InvalidServerKey key)
              | some k =>
                match config.ca_path with
                | some ca =>
                  if (fs ca).openable = false then
                    Except.error (Error.CaFileNotFound ca)
                  else if (fs ca).caAddOk = false then
                    Except.error (Error.InvalidCACert ca)
                  else if setSingleCertOk then
                    Except.ok (some (TlsAcceptorModel.mk certs k true))
                  else Except.error (Error.Tls 0)
                | none =>
                  if setSingleCertOk then
                    Except.ok (some (TlsAcceptorModel.mk certs k false))
                  else Except.error (Error.Tls 0)

/-- Abstract view of a file on disk as the native-tls backend reads it:
whether `File::open` succeeds, whether `read_to_end` succeeds, whether
`Identity::from_pkcs12(&buf, &password)` succeeds for a given passphrase,
and whether `TlsAcceptor::builder(identity).build()` succeeds. -/
structure P12File where
  openable : Bool
  readOk : Bool
  identityOk : String → Bool
  builderOk : Bool

/-- Embedding of `Server::tls`, native-tls backend (lib.rs lines 244-275).
The produced acceptor carries no data this layer inspects, so it is
modelled as `Unit`. -/
def tls_native (config : ServerSettings) (fs : String → P12File) :
    Except Error (Option Unit) :=
  match config.pkcs12_path, config.pkcs12_pass with
  | some cert, some password =>
    if (fs cert).openable = false then
      Except.error (Error.ServerCertNotFound cert)
    else if (fs cert).readOk = false then
      Except.error (Error.InvalidServerCert cert)
    else if (fs cert).identityOk password = false then
      Except.error (Error.InvalidServerCert cert)
    else if (fs cert).builderOk then Except.ok (some ())
    else Except.error (Error.Tls 0)
  | _, _ => Except.ok none

/-- How the spawned per-connection task obtains its `Network`
(lib.rs lines 351-373): with an acceptor present it performs the TLS
handshake and, on failure, logs and returns without a network; with no
acceptor it wraps the TCP stream directly. -/
inductive NetworkKind
  | tlsStream
  | tcpStream
deriving DecidableEq

/-- The network-selection step of the spawned task: `none` means the task
returned early after a failed TLS accept. -/
def connectionNetwork (acceptor : Option TlsAcceptorModel)
    (tlsAcceptOk : Bool) : Option NetworkKind :=
  match acceptor with
  | some _ => if tlsAcceptOk then some NetworkKind.tlsStream else none
  | none => some NetworkKind.tcpStream

/-- The body of the spawned per-connection task (lib.rs lines 351-381):
select the network, then run `connector.new_connection`; its `Result` is
only logged (`if let Err(e) = .. Dropping link task`), never returned, so
the task's observable outcome is just the list of router-channel send
attempts it made. -/
def serverTask (acceptor : Option TlsAcceptorModel) (tlsAcceptOk : Bool)
    (handshake : Except Error (String × Nat × Except RemoteLinkError Unit × Bool))
    (sendOk : Bool) : List (Nat × Event Bool) :=
  match connectionNetwork acceptor tlsAcceptOk with
  | none => []
  | some _ => (new_connection handshake sendOk).2

/-- One observation of the accept loop of `Server::start`
(lib.rs lines 337-388): either `listener.accept().await` fails with an
I/O error, or a connection is accepted and its task's fate is given by the
TLS-accept outcome, the handshake outcome and the router-send outcome. -/
inductive AcceptOutcome
  | ioError (k : IoErrorKind)
  | conn (tlsAcceptOk : Bool)
      (handshake : Except Error (String × Nat × Except RemoteLinkError Unit × Bool))
      (sendOk : Bool)

/-- Embedding of the accept loop of `Server::start` over a finite prefix of
accept outcomes: `accept` failure ends the loop with `Error::Io` (the `?`
on line 339); an accepted connection spawns its task, increments `count`
and sleeps, and the loop continues regardless of the task's fate. Returns
the loop's terminal error (`none` while still accepting), the final
`count`, and each spawned task's send attempts. -/
def startLoop (acceptor : Option TlsAcceptorModel) :
    List AcceptOutcome → Nat →
      Option Error × Nat × List (List (Nat × Event Bool))
  | [], count => (none, count, [])
  | AcceptOutcome.ioError k :: _, count => (some (Error.Io k), count, [])
  | AcceptOutcome.conn t hs s :: rest, count =>
      let evs := serverTask acceptor t hs s
      let r := startLoop acceptor rest (count + 1)
      (r.1, r.2.1, evs :: r.2.2)

/-- Replaces the payload of every accepted-connection outcome by a fixed
one, keeping the accept-failure outcomes; used to state that the loop is
insensitive to the fates of its spawned tasks. -/
def scrubConn : AcceptOutcome → AcceptOutcome
  | AcceptOutcome.ioError k => AcceptOutcome.ioError k
  | AcceptOutcome.conn _ _ _ =>
      AcceptOutcome.conn true (Except.error Error.Disconnected) true

/-- Logical-clock model of the accept loop's timing (lib.rs lines 337-388):
`wait n` is the time the loop spends blocked in `listener.accept().await`
before the n-th connection arrives, and after every accepted connection the
loop sleeps the configured `delay` before the next accept. `acceptTime`
gives the instant the n-th connection is accepted. -/
def acceptTime (delay : Nat) (wait : Nat → Nat) : Nat → Nat
  | 0 => wait 0
  | n + 1 => acceptTime delay wait n + delay + wait (n + 1)

/-- A cloneable send handle of the router channel, opaque to this layer. -/
structure SenderModel where
  chan : Nat
deriving DecidableEq

/-- The `Broker` struct (lib.rs lines 157-161). The router itself is
opaque to this layer; `router` is `some` until `start` takes it. -/
structure Broker where
  config : Config
  router_tx : SenderModel
  router : Option Nat
deriving DecidableEq

/-- Embedding of `Broker::new` (lib.rs lines 164-173): builds the router
from the router configuration and stores it together with the channel's
send handle. -/
def Broker.new (config : Config) : Broker :=
  Broker.mk config (SenderModel.mk config.router) (some config.router)

/-- Embedding of the router-take step of `Broker::start`
(lib.rs lines 187-191): `self.router.take().unwrap()` moves the router out
of the field, leaving `none`; the `unwrap` panics when the field already
holds `none`. `none` models the panic; `some b` is the broker as the rest
of `start` observes it. -/
def Broker.start (b : Broker) : Option Broker :=
  match b.router with
  | none => none
  | some _ => some (Broker.mk b.config b.router_tx none)

/-- Modelled from the spec: the local in-process link handle
(`locallink::LinkTx`, outside the measured source) constructed from a
client id and a clone of the router send handle. -/
structure LinkTx where
  client_id : String
  router_tx : SenderModel
deriving DecidableEq

/-- Modelled from the spec: the constructor `LinkTx::new`, which is
infallible as used by `Broker::link`. -/
def LinkTx.new (client_id : String) (router_tx : SenderModel) : LinkTx :=
  LinkTx.mk client_id router_tx

/-- Modelled from the spec: the local link error type (`locallink`,
outside the measured source); its variants are irrelevant here. -/
inductive LinkError
  | other (tag : Nat)
deriving DecidableEq

/-- Embedding of `Broker::link` (lib.rs lines 179-185): constructs the
local link handle unconditionally and returns it wrapped in `Ok`. -/
def Broker.link (b : Broker) (client_id : String) :
    Except LinkError LinkTx :=
  Except.ok (LinkTx.new client_id b.router_tx)

/-- The execute-will flag carried by an event. -/
def executeWillOf {α : Type} : Event α → Bool
  | Event.Disconnect d => d.execute_will

/-- The pending-session-state value carried by an event. -/
def pendingOf {α : Type} : Event α → α
  | Event.Disconnect d => d.pending

/-- The pending value produced by the classification equals the
state-clean query value, whichever branch is taken. -/
theorem disconnectClassify_snd {α : Type} (r : Except RemoteLinkError Unit)
    (c : α) : (disconnectClassify r c).2 = c := by
  rcases r with e | _
  · rcases e with k | _ | t
    · by_cases h : k = IoErrorKind.connectionAborted <;>
        simp [disconnectClassify, h]
    · rfl
    · rfl
  · rfl

/-- Sample connection settings used by concrete witnesses. -/
def sampleConn : ConnectionSettings :=
  ConnectionSettings.mk 0 0 0 0 0 0 none none

/-- Sample listener settings (no TLS material) used by concrete
witnesses. -/
def sampleSettings : ServerSettings :=
  ServerSettings.mk 1883 none none none none none 0 sampleConn

/-- C1: for every post-handshake termination, the emitted disconnect
event's `execute_will` flag is `false` exactly when the link's run result
is the client-requested-disconnect error; an `Ok` exit, the
`ConnectionAborted` clean-close condition and every other error all yield
`execute_will = true`. -/
theorem c1_execute_will_false_iff_client_disconnect
    (r : Except RemoteLinkError Unit) (clean : Bool) (cid : String)
    (id : Nat) (sendOk : Bool) :
    ((new_connection (Except.ok (cid, id, r, clean)) sendOk).2.map
        (fun m => executeWillOf m.2) = [false]) ↔
      r = Except.error RemoteLinkError.disconnect := by
  cases sendOk <;> rcases r with ((_ | tag) | _ | t) | _ <;>
    simp [new_connection, disconnectClassify, executeWillOf]

/-- C2: `Connector::new_connection` sends a disconnect event exactly once
if and only if the handshake succeeded: handshake failure returns the
error with no send attempt, and every post-handshake outcome produces one
event keyed by the connection id obtained at handshake. -/
theorem c2_one_send_iff_handshake
    (hs : Except Error (String × Nat × Except RemoteLinkError Unit × Bool))
    (sendOk : Bool) :
    (∀ e, hs = Except.error e →
        new_connection hs sendOk = (Except.error e, [])) ∧
    (∀ cid id r clean, hs = Except.ok (cid, id, r, clean) →
        ∃ d, (new_connection hs sendOk).2 = [(id, Event.Disconnect d)]) := by
  constructor
  · rintro e rfl; rfl
  · rintro cid id r clean rfl
    refine ⟨Disconnection.mk cid (disconnectClassify r clean).1
      (disconnectClassify r clean).2, ?_⟩
    cases sendOk <;> rfl

/-- Witness for C2: a failed handshake sends nothing and returns the
error; a successful handshake ending in `Ok` sends one event keyed by the
connection id. -/
theorem c2_one_send_iff_handshake_witness :
    new_connection (α := Bool) (Except.error Error.Timeout) true =
        (Except.error Error.Timeout, []) ∧
    (∃ d, (new_connection
        (Except.ok ("c", 5, Except.ok (), true)) true).2 =
          [(5, Event.Disconnect d)]) :=
  ⟨(c2_one_send_iff_handshake (Except.error Error.Timeout) true).1
      Error.Timeout rfl,
   (c2_one_send_iff_handshake
      (Except.ok ("c", 5, Except.ok (), true)) true).2
      "c" 5 (Except.ok ()) true rfl⟩

/-- C3: in every termination branch, the pending value placed in the
emitted disconnect event equals the link's state-clean query value at
exit, independent of the branch taken and of the `execute_will`
classification. -/
theorem c3_pending_equals_state_clean (cid : String) (id : Nat)
    (r : Except RemoteLinkError Unit) (clean : Bool) (sendOk : Bool) :
    ((new_connection (Except.ok (cid, id, r, clean)) sendOk).2.map
        (fun m => pendingOf m.2)) = [clean] := by
  have h := disconnectClassify_snd r clean
  cases sendOk <;> simp [new_connection, pendingOf, h]

/-- C4: the rustls backend distinguishes failure kinds: unopenable
certificate file versus unparsable certificate content, unopenable key
file versus unparsable-or-empty key content, and a configured certificate
with no key path. -/
theorem c4_tls_rustls_error_kinds (config : ServerSettings)
    (fs : String → FsFile) (sso : Bool) :
    (∀ cert, config.cert_path = some cert → (fs cert).openable = false →
        tls_rustls config fs sso =
          Except.error (Error.ServerCertNotFound cert)) ∧
    (∀ cert, config.cert_path = some cert → (fs cert).openable = true →
        (fs cert).certsPem = none →
        tls_rustls config fs sso =
          Except.error (Error.InvalidServerCert cert)) ∧
    (∀ cert cs, config.cert_path = some cert → (fs cert).openable = true →
        (fs cert).certsPem = some cs → config.key_path = none →
        tls_rustls config fs sso = Except.error Error.ServerKeyRequired) ∧
    (∀ cert cs key, config.cert_path = some cert →
        (fs cert).openable = true → (fs cert).certsPem = some cs →
        config.key_path = some key → (fs key).openable = false →
        tls_rustls config fs sso =
          Except.error (Error.ServerKeyNotFound key)) ∧
    (∀ cert cs key, config.cert_path = some cert →
        (fs cert).openable = true → (fs cert).certsPem = some cs →
        config.key_path = some key → (fs key).openable = true →
        ((fs key).rsaKeys = none ∨ (fs key).rsaKeys = some []) →
        tls_rustls config fs sso =
          Except.error (Error.InvalidServerKey key)) := by
  refine ⟨?_, ?_, ?_, ?_, ?_⟩
  · intro cert h1 h2
    simp [tls_rustls, h1, h2]
  · intro cert h1 h2 h3
    simp [tls_rustls, h1, h2, h3]
  · intro cert cs h1 h2 h3 h4
    simp [tls_rustls, h1, h2, h3, h4]
  · intro cert cs key h1 h2 h3 h4 h5
    simp [tls_rustls, h1, h2, h3, h4, h5]
  · intro cert cs key h1 h2 h3 h4 h5 h6
    rcases h6 with h6 | h6 <;> simp [tls_rustls, h1, h2, h3, h4, h5, h6]

/-- Witness for C4: five concrete scenarios, one per distinguished
failure kind. -/
theorem c4_tls_rustls_error_kinds_witness :
    tls_rustls { sampleSettings with cert_path := some "c" }
        (fun _ => FsFile.mk false none none false) true =
      Except.error (Error.ServerCertNotFound "c") ∧
    tls_rustls { sampleSettings with cert_path := some "c" }
        (fun _ => FsFile.mk true none none false) true =
      Except.error (Error.InvalidServerCert "c") ∧
    tls_rustls { sampleSettings with cert_path := some "c" }
        (fun _ => FsFile.mk true (some [1]) none false) true =
      Except.error Error.ServerKeyRequired ∧
    tls_rustls
        { sampleSettings with cert_path := some "c", key_path := some "k" }
        (fun p => FsFile.mk (decide (p = "c")) (some [1]) none false) true =
      Except.error (Error.ServerKeyNotFound "k") ∧
    tls_rustls
        { sampleSettings with cert_path := some "c", key_path := some "k" }
        (fun _ => FsFile.mk true (some [1]) (some []) false) true =
      Except.error (Error.InvalidServerKey "k") :=
  ⟨(c4_tls_rustls_error_kinds _ _ _).1 "c" rfl rfl,
   (c4_tls_rustls_error_kinds _ _ _).2.1 "c" rfl rfl rfl,
   (c4_tls_rustls_error_kinds _ _ _).2.2.1 "c" [1] rfl rfl rfl rfl,
   (c4_tls_rustls_error_kinds _ _ _).2.2.2.1 "c" [1] "k" rfl (by decide)
      rfl rfl (by decide),
   (c4_tls_rustls_error_kinds _ _ _).2.2.2.2 "c" [1] "k" rfl rfl rfl rfl
      rfl (Or.inr rfl)⟩

/-- C5: with no certificate material configured (no cert path in the
rustls backend; no bundle and no passphrase in the native-tls backend),
`Server::tls` returns no acceptor, and the accept loop's task handles the
connection as plaintext without a TLS handshake. -/
theorem c5_no_material_means_plaintext (config : ServerSettings)
    (fs : String → FsFile) (fsN : String → P12File) (sso tlsOk : Bool) :
    (config.cert_path = none → tls_rustls config fs sso = Except.ok none) ∧
    (config.pkcs12_path = none → config.pkcs12_pass = none →
        tls_native config fsN = Except.ok none) ∧
    connectionNetwork none tlsOk = some NetworkKind.tcpStream := by
  refine ⟨?_, ?_, rfl⟩
  · intro h; simp [tls_rustls, h]
  · intro h1 h2; simp [tls_native, h1, h2]

/-- Witness for C5: the sample settings configure no TLS material and
both backends return no acceptor; with no acceptor, the task uses the
plain TCP stream. -/
theorem c5_no_material_means_plaintext_witness :
    tls_rustls sampleSettings (fun _ => FsFile.mk false none none false)
        true = Except.ok none ∧
    tls_native sampleSettings
        (fun _ => P12File.mk false false (fun _ => false) false) =
      Except.ok none ∧
    connectionNetwork none true = some NetworkKind.tcpStream :=
  ⟨(c5_no_material_means_plaintext sampleSettings
      (fun _ => FsFile.mk false none none false)
      (fun _ => P12File.mk false false (fun _ => false) false)
      true true).1 rfl,
   (c5_no_material_means_plaintext sampleSettings
      (fun _ => FsFile.mk false none none false)
      (fun _ => P12File.mk false false (fun _ => false) false)
      true true).2.1 rfl rfl,
   (c5_no_material_means_plaintext sampleSettings
      (fun _ => FsFile.mk false none none false)
      (fun _ => P12File.mk false false (fun _ => false) false)
      true true).2.2⟩

/-- C6: the accept loop sleeps the configured delay after every accepted
connection, so the instant of the n-th accept is at least the instant of
the first accept plus n times the delay: N sequential accepts take at
least (N-1) times the delay. -/
theorem c6_accept_times_lower_bound (delay : Nat) (wait : Nat → Nat)
    (n : Nat) :
    acceptTime delay wait 0 + n * delay ≤ acceptTime delay wait n := by
  induction n with
  | zero => simp
  | succ m ih =>
      calc acceptTime delay wait 0 + (m + 1) * delay
          = acceptTime delay wait 0 + m * delay + delay := by ring
        _ ≤ acceptTime delay wait m + delay := Nat.add_le_add_right ih delay
        _ ≤ acceptTime delay wait m + delay + wait (m + 1) :=
            Nat.le_add_right _ _
        _ = acceptTime delay wait (m + 1) := rfl

/-- C7: a failed router send makes `new_connection` return the channel
error after exactly one send attempt (no retry), and the accept loop's
terminal error and count are insensitive to every spawned connection's
fate, send failures included. -/
theorem c7_send_failure_fatal_and_isolated :
    (∀ (cid : String) (id : Nat) (r : Except RemoteLinkError Unit)
        (clean : Bool),
        (new_connection (Except.ok (cid, id, r, clean)) false).1 =
            Except.error Error.Send ∧
        (new_connection (Except.ok (cid, id, r, clean)) false).2.length =
            1) ∧
    (∀ (acceptor : Option TlsAcceptorModel) (outcomes : List AcceptOutcome)
        (count : Nat),
        (startLoop acceptor outcomes count).1 =
            (startLoop acceptor (outcomes.map scrubConn) count).1 ∧
        (startLoop acceptor outcomes count).2.1 =
            (startLoop acceptor (outcomes.map scrubConn) count).2.1) := by
  constructor
  · intro cid id r clean
    exact ⟨rfl, rfl⟩
  · intro acceptor outcomes
    induction outcomes with
    | nil => intro count; exact ⟨rfl, rfl⟩
    | cons o rest ih =>
        intro count
        cases o with
        | ioError k => exact ⟨rfl, rfl⟩
        | conn t hs s =>
            simpa [startLoop, scrubConn] using ih (count + 1)

/-- C8: `Broker::start` takes the stored router with `unwrap`, so a first
call on a fresh broker proceeds and a second call on the same broker
panics because the router field is already `None`. -/
theorem c8_second_start_panics (cfg : Config) :
    (Broker.new cfg).start.isSome = true ∧
    ((Broker.new cfg).start.bind Broker.start) = none :=
  ⟨rfl, rfl⟩

/-- C9: in the PKCS#12 backend, configuring exactly one of the bundle
path and the passphrase yields `Ok(None)` rather than an error: the
listener silently proceeds in plaintext despite partial TLS material. -/
theorem c9_partial_pkcs12_silently_plaintext (cfg : ServerSettings)
    (p pass : String) (fs : String → P12File) :
    tls_native { cfg with pkcs12_path := some p, pkcs12_pass := none } fs =
        Except.ok none ∧
    tls_native { cfg with pkcs12_path := none, pkcs12_pass := some pass }
        fs = Except.ok none :=
  ⟨rfl, rfl⟩

/-- C10: `Broker::link` returns `Ok` for every client id: the local link
handle is constructed unconditionally and no error path exists. -/
theorem c10_link_always_ok (b : Broker) (client_id : String) :
    ∃ tx, Broker.link b client_id = Except.ok tx :=
  ⟨LinkTx.new client_id b.router_tx, rfl⟩

end Rumqttd
